import Mathlib

/-!
Verification development for the rust-hexo static-site generator.

The definitions below are a shallow embedding of the plugin host and the
content-processing pipeline of the repository:

* `src/plugins/mod.rs` — `PluginManager` (`process_content`, `execute_hook`,
  `load_plugins`, `load_plugin_from_dylib`, `init`, `is_initialized`);
* `src/plugins/error.rs` — `PluginHook`;
* `src/core/engine.rs` — `Engine::run`, `Engine::generate`,
  `Engine::load_posts_and_pages`, `Engine::process_categories_and_tags`;
* `src/core/generator.rs` — `HtmlGenerator::generate`,
  `HtmlGenerator::generate_paginated_index`.

Rust `Result<T, anyhow::Error>` is embedded as `Except String T`.  The
registry of loaded plugins is a `std::collections::HashMap`; its iteration
order is arbitrary (any permutation of the stored entries), which the
embedding makes explicit: functions that iterate over the registry take the
iteration sequence as an argument, and `IsHashMapIter` says which sequences
the `HashMap` contract admits.  External collaborators that the spec puts
out of scope (markdown rendering, slugification, the YAML front-matter
parser, filesystem and template rendering outcomes) are passed in as
function or data parameters.
-/

namespace RustHexo

/-- `ContentType` from `src/plugins/mod.rs`. -/
inductive ContentType where
  | Markdown
  | HTML
  | JSON
  | YAML
  | CSS
  | JavaScript
  | Plain
deriving DecidableEq, Repr

/-- `PluginHook` from `src/plugins/error.rs`. -/
inductive PluginHook where
  | Init
  | BeforeGenerate
  | AfterGenerate
  | BeforeDeploy
  | AfterDeploy
  | NewPost
  | NewPage
  | Clean
  | ConfigChanged
  | BeforePostRender
  | AfterPostRender
  | BeforePageRender
  | AfterPageRender
  | BeforeRouteGenerate
  | AfterRouteGenerate
  | BeforeAssetProcess
  | AfterAssetProcess
  | BeforeServerStart
  | AfterServerStart
  | BeforeTemplateLoad
  | AfterTemplateLoad
deriving DecidableEq, Repr

/-- Debug rendering of a hook (Rust `format!("{:?}", hook)`), used in
error messages built by `PluginManager::execute_hook`. -/
def hookDebug : PluginHook → String
  | .Init => "Init"
  | .BeforeGenerate => "BeforeGenerate"
  | .AfterGenerate => "AfterGenerate"
  | .BeforeDeploy => "BeforeDeploy"
  | .AfterDeploy => "AfterDeploy"
  | .NewPost => "NewPost"
  | .NewPage => "NewPage"
  | .Clean => "Clean"
  | .ConfigChanged => "ConfigChanged"
  | .BeforePostRender => "BeforePostRender"
  | .AfterPostRender => "AfterPostRender"
  | .BeforePageRender => "BeforePageRender"
  | .AfterPageRender => "AfterPageRender"
  | .BeforeRouteGenerate => "BeforeRouteGenerate"
  | .AfterRouteGenerate => "AfterRouteGenerate"
  | .BeforeAssetProcess => "BeforeAssetProcess"
  | .AfterAssetProcess => "AfterAssetProcess"
  | .BeforeServerStart => "BeforeServerStart"
  | .AfterServerStart => "AfterServerStart"
  | .BeforeTemplateLoad => "BeforeTemplateLoad"
  | .AfterTemplateLoad => "AfterTemplateLoad"

/-- A loaded plugin instance (the behavioural part of the `Plugin` trait of
`src/plugins/mod.rs`): its self-reported name and version and the outcomes
of its fallible trait methods. -/
structure PluginF where
  name : String
  version : String
  processContent : String → ContentType → Except String String
  executeHook : PluginHook → Except String Unit
  cleanupResult : Except String Unit

/-- The content of the `PluginManager.plugins` registry, a
`HashMap<String, Box<dyn Plugin>>`: association list from normalized
plugin name to plugin instance. -/
abbrev Registry := List (String × PluginF)

/-- The `HashMap` contract for iteration: `iter` is an admissible sequence
in which `plugins.iter()` may visit the entries of a map holding exactly
`entries` — each entry exactly once, in an arbitrary (unspecified) order. -/
abbrev IsHashMapIter {α : Type} (entries iter : List (String × α)) : Prop :=
  iter.Perm entries

/-- The loop body of `PluginManager::process_content`
(`src/plugins/mod.rs` lines 464-479): each plugin is applied to the
accumulated content; on `Ok(new_content)` the accumulator is replaced, on
`Err` a warning is logged and the accumulator is kept unchanged. -/
def processContentLoop : List (String × PluginF) → String → ContentType → String
  | [], processed, _ => processed
  | (_, plugin) :: rest, processed, contentType =>
    match plugin.processContent processed contentType with
    | .ok newContent => processContentLoop rest newContent contentType
    | .error _ => processContentLoop rest processed contentType

/-- `PluginManager::process_content`, given the iteration sequence `iter`
of the plugin registry: runs the loop and always returns `Ok(processed)`. -/
def managerProcessContent (iter : List (String × PluginF)) (content : String)
    (contentType : ContentType) : Except String String :=
  .ok (processContentLoop iter content contentType)

/-- The loop of `PluginManager::execute_hook` (`src/plugins/mod.rs` lines
482-501): collects one formatted message per failing plugin, visiting every
plugin. -/
def executeHookLoop : List (String × PluginF) → PluginHook → List String
  | [], _ => []
  | (name, plugin) :: rest, hook =>
    match plugin.executeHook hook with
    | .ok _ => executeHookLoop rest hook
    | .error e =>
      ("插件 " ++ name ++ " 执行钩子 " ++ hookDebug hook ++ " 失败: " ++ e)
        :: executeHookLoop rest hook

/-- `PluginManager::execute_hook`: if any plugin failed, returns one
aggregated `PluginError::HookError`; otherwise `Ok(())`. -/
def managerExecuteHook (iter : List (String × PluginF)) (hook : PluginHook) :
    Except String Unit :=
  let errors := executeHookLoop iter hook
  if errors.isEmpty then .ok ()
  else .error ("执行钩子失败: 插件 multiple 在执行 " ++ hookDebug hook
      ++ " 时出错: " ++ String.intercalate "; " errors)

/-- Outcomes of the filesystem / rendering operations performed during one
generation run (external collaborators: directory creation, file writes,
template rendering).  Each field is the `Result` of the corresponding
fallible step. -/
structure GenIOEnv where
  engineCreateOutputDir : Except String Unit
  loadPosts : Except String Unit
  classify : Except String Unit
  pluginInit : Except String Unit
  createOutputDir : Except String Unit
  copyThemeAssets : Except String Unit
  generatePosts : Except String Unit
  generatePaginatedIndex : Except String Unit
  generateCategories : Except String Unit
  generateTags : Except String Unit
  generateArchives : Except String Unit
  generateRss : Except String Unit
  generateAtom : Except String Unit
  generateSearchIndex : Except String Unit

/-- `HtmlGenerator::generate` (`src/core/generator.rs` lines 64-107):
dispatches the `BeforeGenerate` hook with `?` (the aggregated error
propagates), runs every emit stage with `?`, then dispatches
`AfterGenerate`, again with `?`. -/
def generatorGenerate (iter : List (String × PluginF)) (env : GenIOEnv) :
    Except String Unit := do
  let _ ← managerExecuteHook iter PluginHook.BeforeGenerate
  let _ ← env.createOutputDir
  let _ ← env.copyThemeAssets
  let _ ← env.generatePosts
  let _ ← env.generatePaginatedIndex
  let _ ← env.generateCategories
  let _ ← env.generateTags
  let _ ← env.generateArchives
  let _ ← env.generateRss
  let _ ← env.generateAtom
  let _ ← env.generateSearchIndex
  let _ ← managerExecuteHook iter PluginHook.AfterGenerate
  return ()

/-- `Engine::generate` (`src/core/engine.rs` lines 571-631): creates the
output directory, (re)loads posts, reclassifies, re-initializes the plugin
manager (`is_initialized` returns `false`, so `init` always runs; its
possible filesystem failure is `env.pluginInit`), and calls
`HtmlGenerator::generate`, each step with `?`. -/
def engineGenerate (iter : List (String × PluginF)) (env : GenIOEnv) :
    Except String Unit := do
  let _ ← env.engineCreateOutputDir
  let _ ← env.loadPosts
  let _ ← env.classify
  let _ ← env.pluginInit
  generatorGenerate iter env

/-- `Engine::run` (`src/core/engine.rs` lines 249-279): the hook dispatches
at its own three checkpoints (`BeforeGenerate`, `BeforeRouteGenerate`,
`AfterGenerate`) are performed with `if let Err(e) = ... { warn!(...) }` —
the result is computed and discarded — while loading, classification and
`Engine::generate` use `?`. -/
def engineRun (iter : List (String × PluginF)) (env : GenIOEnv) :
    Except String Unit := do
  let _beforeGen := managerExecuteHook iter PluginHook.BeforeGenerate
  let _ ← env.loadPosts
  let _ ← env.classify
  let _beforeRoute := managerExecuteHook iter PluginHook.BeforeRouteGenerate
  let _ ← engineGenerate iter env
  let _afterGen := managerExecuteHook iter PluginHook.AfterGenerate
  return ()

/-- A YAML value (`serde_yaml::Value` restricted to the shapes the engine
inspects): null, booleans, numbers, strings, sequences and mappings. -/
inductive YamlValue where
  | nullV
  | boolV (b : Bool)
  | numV (n : Int)
  | strV (s : String)
  | seqV (xs : List YamlValue)
  | mapV (entries : List (String × YamlValue))

/-- `Post` from `src/models/types.rs`, keeping the fields the verified
pipeline stages read or write.  `date` is the chrono timestamp, embedded
as an integer so that the date comparator is faithful. -/
structure Post where
  title : String
  date : Int
  content : String
  rendered_content : Option String
  path : String
  permalink : String
  categories : List String
  tags : List String
  front_matter : List (String × YamlValue)

/-- The body of the `for page_num in 1..=total_pages` loop of
`HtmlGenerator::generate_paginated_index` for page `i + 1` (zero-based
`i`): the slice `posts[start_idx..end_idx]` with
`start_idx = (page_num - 1) * page_size` and
`end_idx = min(start_idx + page_size, total_posts)`. -/
def pageSlice (posts : List Post) (pageSize i : Nat) : List Post :=
  let startIdx := i * pageSize
  let endIdx := min (startIdx + pageSize) posts.length
  (posts.drop startIdx).take (endIdx - startIdx)

/-- `HtmlGenerator::generate_paginated_index` (`src/core/generator.rs`
lines 165-191), keeping the per-page post slices: `total_pages =
(total_posts + page_size - 1) / page_size` index pages are produced, page
`page_num` holding `posts[start_idx..end_idx]`. -/
def paginatedPages (posts : List Post) (pageSize : Nat) : List (List Post) :=
  let totalPosts := posts.length
  let totalPages := (totalPosts + pageSize - 1) / pageSize
  (List.range totalPages).map (pageSlice posts pageSize)

/-- `HashMap::get` on the front-matter map: lookup by key in the
association list. -/
def fmGet : List (String × YamlValue) → String → Option YamlValue
  | [], _ => none
  | (k, v) :: rest, key => if k = key then some v else fmGet rest key

/-- One step of the loop over a `Value::Sequence` front-matter value:
a `Value::String` element is appended to the collected names, any other
element is ignored. -/
def taxoAcc (acc : List String) : YamlValue → List String
  | YamlValue.strV name => acc ++ [name]
  | _ => acc

/-- The category/tag extraction of `Engine::process_categories_and_tags`
(`src/core/engine.rs` lines 445-463 for `categories`, 466-484 for `tags`):
`if let Some(Value::Sequence(..))` keeps the `Value::String` elements via
`taxoAcc`, `else if let Some(Value::String(..))` yields that single name,
every other shape yields no names. -/
def processTaxoField (fm : List (String × YamlValue)) (key : String) :
    List String :=
  match fmGet fm key with
  | some (YamlValue.seqV xs) => xs.foldl taxoAcc []
  | some (YamlValue.strV name) => [name]
  | _ => []

/-- One `categories_map.entry(name).or_insert_with(Vec::new).push(post)`
step, recorded as a post count per name (the pushed posts are used only
through `posts.len()` when the `Category`/`Tag` records are built). -/
def bumpGroup : List (String × Nat) → String → List (String × Nat)
  | [], name => [(name, 1)]
  | (k, n) :: rest, name =>
    if k = name then (k, n + 1) :: rest else (k, n) :: bumpGroup rest name

/-- The contents of `categories_map` (resp. `tags_map`) after the loop of
`Engine::process_categories_and_tags` over all posts: for each post, each
extracted name pushes one clone of the post into that name's bucket. -/
def groupCounts (posts : List Post) (key : String) : List (String × Nat) :=
  posts.foldl (fun acc post =>
    (processTaxoField post.front_matter key).foldl bumpGroup acc) []

/-- `Category` from `src/models/types.rs` (the `parent` field is always
`None` here, as in `process_categories_and_tags`). -/
structure Category where
  name : String
  slug : String
  path : String
  post_count : Nat
deriving DecidableEq, Repr

/-- `Tag` from `src/models/types.rs`. -/
structure Tag where
  name : String
  slug : String
  path : String
  post_count : Nat
deriving DecidableEq, Repr

/-- The `categories_map.into_iter().map(...)` step of
`process_categories_and_tags` (`src/core/engine.rs` lines 494-505), applied
to the entries in the iteration sequence `iter` the `HashMap` produced;
`slugify` is the external `slug::slugify`. -/
def categoriesFromIter (slugify : String → String)
    (iter : List (String × Nat)) : List Category :=
  iter.map (fun g =>
    { name := g.1, slug := slugify g.1,
      path := "categories/" ++ g.1.toLower, post_count := g.2 })

/-- The `tags_map.into_iter().map(...)` step (`src/core/engine.rs` lines
508-518). -/
def tagsFromIter (slugify : String → String)
    (iter : List (String × Nat)) : List Tag :=
  iter.map (fun g =>
    { name := g.1, slug := slugify g.1,
      path := "tags/" ++ g.1.toLower, post_count := g.2 })

/-- The post-list update at the end of `Engine::load_posts_and_pages`
(`src/core/engine.rs` lines 409-418): only when `found_posts` is non-empty
is it sorted by date descending (`sort_by(|a, b| b.date.cmp(&a.date))`)
and written over the store; otherwise the store keeps its old contents. -/
def updatePostsStore (oldPosts foundPosts : List Post) : List Post :=
  if foundPosts.isEmpty then oldPosts
  else foundPosts.mergeSort (fun a b => b.date ≤ a.date)

/-- Outcome of one foreign call wrapped in `std::panic::catch_unwind`:
the call returned a value, returned an error, or panicked (caught). -/
inductive FfiResult (α : Type) where
  | ok (a : α)
  | err (msg : String)
  | panicked

/-- Outcome of `unsafe { constructor() }` for the `create_plugin` symbol:
it either returns a plugin instance or panics (no error channel). -/
inductive CtorResult where
  | ok (plugin : PluginF)
  | panicked

/-- One candidate dynamic-library file as `load_plugin_from_dylib`
observes it: the filesystem checks and the outcome of each foreign call. -/
structure DylibCandidate where
  fileExists : Bool
  metadataOk : Bool
  fileLen : Nat
  libNew : FfiResult Unit
  getSymbol : FfiResult Unit
  callCtor : CtorResult
  initResult : Except String Unit

/-- `PluginManager::load_plugin_from_dylib` (`src/plugins/mod.rs` lines
174-285): validates existence, readable metadata and non-zero size, opens
the library, resolves `create_plugin` and invokes it — every foreign step
behind `catch_unwind`, panics converted to `LoadError` — then calls the
instance's `init`; an `init` failure discards the instance and surfaces an
`InitError`. -/
def loadPluginFromDylib (c : DylibCandidate) : Except String PluginF :=
  if c.fileExists = false then .error "插件文件不存在"
  else if c.metadataOk = false then .error "无法读取插件文件元数据"
  else if c.fileLen = 0 then .error "插件文件为空"
  else
    match c.libNew with
    | .err e => .error ("无法加载库: " ++ e)
    | .panicked => .error "加载库时发生严重错误，可能是ABI不兼容"
    | .ok _ =>
      match c.getSymbol with
      | .err e => .error ("找不到 create_plugin 函数: " ++ e)
      | .panicked => .error "解析 create_plugin 符号时发生严重错误"
      | .ok _ =>
        match c.callCtor with
        | .panicked => .error "调用 create_plugin 时发生严重错误"
        | .ok plugin =>
          match c.initResult with
          | .error e => .error ("初始化插件失败: " ++ plugin.name ++ " - " ++ e)
          | .ok _ => .ok plugin

/-- Outcome of the outer `catch_unwind(|| self.load_plugin_from_dylib(..))`
in the `load_plugins` loop: either the call completed (with the candidate
it inspected) or a panic escaped and was caught there. -/
inductive OuterLoad where
  | completed (c : DylibCandidate)
  | panicked (msg : String)

/-- One entry of the plugin directory as the `load_plugins` loop sees it:
a failed `read_dir` entry, a non-file, a file without or with a
non-native-library extension, or a native library with its load outcome. -/
inductive DirEntry where
  | readError (msg : String)
  | notAFile (name : String)
  | noExtension (name : String)
  | otherExtension (name ext : String)
  | nativeLib (fileName : String) (load : OuterLoad)

/-- Plugin name normalization before registration (`src/plugins/mod.rs`
lines 355-359): underscores become hyphens (`name.replace('_', "-")`,
expressed character-wise). -/
def normalizeName (name : String) : String :=
  if name.data.contains '_' then
    String.mk (name.data.map (fun c => if c = '_' then '-' else c))
  else name

/-- `HashMap::insert` on the registry: overwrite the value of an existing
key, otherwise add the entry. -/
def hmInsert : Registry → String → PluginF → Registry
  | [], key, plugin => [(key, plugin)]
  | (k, v) :: rest, key, plugin =>
    if k = key then (key, plugin) :: rest
    else (k, v) :: hmInsert rest key plugin

/-- The running state of the `load_plugins` loop: the registry plus
`loaded_count`, `failed_count` and the `failed_plugins` message list. -/
@[ext]
structure LoadReport where
  registry : Registry
  loadedCount : Nat
  failedCount : Nat
  failedPlugins : List String

/-- One iteration of the `load_plugins` loop (`src/plugins/mod.rs` lines
312-389): entry read errors bump `failed_count`; non-files and files
without a native-library extension are skipped; a successful load registers
the plugin under its normalized name and bumps `loaded_count`; a load error
or a caught panic records `"file: reason"` and bumps `failed_count`. -/
def loadPluginsStep (acc : LoadReport) : DirEntry → LoadReport
  | .readError _ => { acc with failedCount := acc.failedCount + 1 }
  | .notAFile _ => acc
  | .noExtension _ => acc
  | .otherExtension _ _ => acc
  | .nativeLib fileName (.panicked msg) =>
    { acc with
      failedPlugins := acc.failedPlugins ++ [fileName ++ ": 严重错误 - " ++ msg],
      failedCount := acc.failedCount + 1 }
  | .nativeLib fileName (.completed c) =>
    match loadPluginFromDylib c with
    | .ok plugin =>
      { acc with
        registry := hmInsert acc.registry (normalizeName plugin.name) plugin,
        loadedCount := acc.loadedCount + 1 }
    | .error e =>
      { acc with
        failedPlugins := acc.failedPlugins ++ [fileName ++ ": " ++ e],
        failedCount := acc.failedCount + 1 }

/-- `PluginManager::load_plugins` (`src/plugins/mod.rs` lines 288-410) in
the case where the plugin directory exists and `read_dir` succeeds: folds
the loop over the directory entries starting from the current registry and
fresh counters, and always returns `Ok(())` (here: the final report). -/
def loadPlugins (registry : Registry) (entries : List DirEntry) :
    Except String LoadReport :=
  .ok (entries.foldl loadPluginsStep
    { registry := registry, loadedCount := 0, failedCount := 0,
      failedPlugins := [] })

/-- `PluginManager` state relevant to initialization: registry plus the
`initialized` flag. -/
structure PMState where
  plugins : Registry
  initialized : Bool

/-- `PluginManager::init` (`src/plugins/mod.rs` lines 413-420): loads all
plugins and sets the `initialized` flag to `true`. -/
def pmInit (pm : PMState) (entries : List DirEntry) :
    Except String PMState :=
  match loadPlugins pm.plugins entries with
  | .error e => .error e
  | .ok report =>
    .ok { plugins := report.registry, initialized := true }

/-- `PluginManager::is_initialized` (`src/plugins/mod.rs` lines 422-437):
the flag- and registry-consulting body is commented out; the function
returns `false` unconditionally. -/
def pmIsInitialized (_pm : PMState) : Bool :=
  false

/-- The plugin-initialization check inside `Engine::generate`
(`src/core/engine.rs` lines 599-613): when `is_initialized()` is `false`
the manager is re-initialized (plugin discovery and loading re-run);
returns the resulting state and whether `init` ran. -/
def engineGenerateInitStep (pm : PMState) (entries : List DirEntry) :
    Except String (PMState × Bool) :=
  if pmIsInitialized pm then .ok (pm, false)
  else
    match pmInit pm entries with
    | .error e => .error e
    | .ok pm2 => .ok (pm2, true)

/-- `Engine::process_content` (`src/core/engine.rs` lines 213-222): the
manager's transform, falling back to the input when it errors (it never
does — `managerProcessContent` always returns `Ok`). -/
def engineProcessContent (iter : List (String × PluginF)) (content : String)
    (contentType : ContentType) : String :=
  match managerProcessContent iter content contentType with
  | .ok processed => processed
  | .error _ => content

/-- The fields of one loaded document that the per-file part of
`Engine::load_posts_and_pages` computes from the file text: the front
matter block handed to the YAML parser, the converted HTML body stored in
`Post.content`, and the plugin-transformed HTML stored in
`Post.rendered_content`. -/
structure LoadedDoc where
  fmData : String
  content : String
  rendered_content : String
deriving DecidableEq, Repr

/-- The per-file pipeline of `Engine::load_posts_and_pages`
(`src/core/engine.rs` lines 302-403): the raw file text is passed through
the Markdown-stage plugin transform first, the transformed text is handed
to the front-matter parser (`matter.parse`, external; returns the data
block, if any, and the remaining body), a file without front-matter data
is skipped (`None`), the body is converted to HTML (`markdown::render`,
external) and passed through the HTML-stage transform; `Post.content`
receives the converted HTML and `Post.rendered_content` the transformed
HTML. -/
def codeLoadDocument (iter : List (String × PluginF))
    (matterParse : String → Option String × String)
    (mdRender : String → String) (raw : String) : Option LoadedDoc :=
  let processedContent := engineProcessContent iter raw ContentType.Markdown
  match matterParse processedContent with
  | (none, _) => none
  | (some yamlData, body) =>
    let htmlContent := mdRender body
    let finalContent := engineProcessContent iter htmlContent ContentType.HTML
    some { fmData := yamlData, content := htmlContent,
           rendered_content := finalContent }

/-- Modelled from the spec: the load order the spec describes — "parsing
front matter, applying the Plugin Host's Markdown-stage transform,
converting to HTML, applying the Plugin Host's HTML-stage transform, and
storing both raw and transformed bodies": front matter is parsed from the
raw file text first, only the body goes through the Markdown-stage
transform, and the raw (pre-transform) body is stored alongside the
transformed one. -/
def specLoadDocument (iter : List (String × PluginF))
    (matterParse : String → Option String × String)
    (mdRender : String → String) (raw : String) : Option LoadedDoc :=
  match matterParse raw with
  | (none, _) => none
  | (some yamlData, body) =>
    let processedBody := engineProcessContent iter body ContentType.Markdown
    let htmlContent := mdRender processedBody
    let finalContent := engineProcessContent iter htmlContent ContentType.HTML
    some { fmData := yamlData, content := body,
           rendered_content := finalContent }

/-- Splits a character sequence at the first closing front-matter
delimiter (a `---` line, i.e. the character run `"\n---\n"`); returns the
part before it and the part after it. -/
def splitAtCloseDelim : List Char → Option (List Char × List Char)
  | [] => none
  | c :: rest =>
    if (c :: rest).take 5 = ['\n', '-', '-', '-', '\n'] then
      some ([], (c :: rest).drop 5)
    else
      match splitAtCloseDelim rest with
      | none => none
      | some (pre, post) => some (c :: pre, post)

/-- A front-matter splitter with the behaviour of the external
`gray_matter` crate on well-formed input: a document starting with a
`---` line has its block up to the closing `---` line returned as data and
the remainder as body; otherwise there is no data. -/
def simpleMatterParse (s : String) : Option String × String :=
  match s.data with
  | '-' :: '-' :: '-' :: '\n' :: rest =>
    match splitAtCloseDelim rest with
    | some (fm, body) => (some (String.mk fm), String.mk body)
    | none => (none, s)
  | _ => (none, s)

/-! Concrete fixtures: sample plugins, directory entries, environments and
posts used to evaluate the definitions on closed inputs. -/

/-- A plugin with the given name, content transform and hook behaviour. -/
def mkPlugin (name : String) (f : String → ContentType → Except String String)
    (h : PluginHook → Except String Unit) : PluginF :=
  { name := name, version := "0.1.0", processContent := f,
    executeHook := h, cleanupResult := .ok () }

/-- A plugin that appends `"a"` to any content. -/
def pluginAppendA : PluginF :=
  mkPlugin "append-a" (fun c _ => .ok (c ++ "a")) (fun _ => .ok ())

/-- A plugin that appends `"b"` to any content. -/
def pluginAppendB : PluginF :=
  mkPlugin "append-b" (fun c _ => .ok (c ++ "b")) (fun _ => .ok ())

/-- The registry contents with `pluginAppendA` registered before
`pluginAppendB`. -/
def regAB : Registry := [("append-a", pluginAppendA), ("append-b", pluginAppendB)]

/-- The same two entries in the opposite iteration sequence. -/
def iterBA : List (String × PluginF) :=
  [("append-b", pluginAppendB), ("append-a", pluginAppendA)]

/-- A plugin whose `execute_hook` fails on `BeforeGenerate` only. -/
def pluginFailBeforeGenerate : PluginF :=
  mkPlugin "fail-before-generate" (fun c _ => .ok c)
    (fun h => if h = PluginHook.BeforeGenerate then .error "hook boom" else .ok ())

/-- A plugin whose `execute_hook` fails on `BeforeRouteGenerate` and whose
`process_content` always fails. -/
def pluginFailRouteHook : PluginF :=
  mkPlugin "fail-route-hook" (fun _ _ => .error "content boom")
    (fun h => if h = PluginHook.BeforeRouteGenerate then .error "route boom" else .ok ())

/-- A plugin whose `process_content` always fails. -/
def pluginFailContent : PluginF :=
  mkPlugin "fail-content" (fun _ _ => .error "content boom") (fun _ => .ok ())

/-- A Markdown-stage plugin that rewrites every `'a'` to `'b'`. -/
def pluginReplaceA : PluginF :=
  mkPlugin "replace-a"
    (fun c t =>
      if t = ContentType.Markdown then
        .ok (String.mk (c.data.map (fun ch => if ch = 'a' then 'b' else ch)))
      else .ok c)
    (fun _ => .ok ())

/-- An environment in which every filesystem / rendering step succeeds. -/
def envAllOk : GenIOEnv :=
  { engineCreateOutputDir := .ok (), loadPosts := .ok (), classify := .ok (),
    pluginInit := .ok (), createOutputDir := .ok (), copyThemeAssets := .ok (),
    generatePosts := .ok (), generatePaginatedIndex := .ok (),
    generateCategories := .ok (), generateTags := .ok (),
    generateArchives := .ok (), generateRss := .ok (), generateAtom := .ok (),
    generateSearchIndex := .ok () }

/-- A post with the given title, date and front matter. -/
def mkPost (title : String) (date : Int)
    (fm : List (String × YamlValue)) : Post :=
  { title := title, date := date, content := "", rendered_content := none,
    path := "posts/" ++ title ++ ".html",
    permalink := "posts/" ++ title ++ ".html",
    categories := [], tags := [], front_matter := fm }

/-- A post whose front matter puts it in category `"a"`. -/
def postCatA : Post := mkPost "pa" 2 [("categories", YamlValue.strV "a")]

/-- A post whose front matter puts it in category `"b"`. -/
def postCatB : Post := mkPost "pb" 1 [("categories", YamlValue.strV "b")]

/-- One admissible iteration sequence of the categories map built from
`[postCatA, postCatB]`. -/
def catsIter1 : List (String × Nat) := [("a", 1), ("b", 1)]

/-- The other admissible iteration sequence of the same map. -/
def catsIter2 : List (String × Nat) := [("b", 1), ("a", 1)]

/-- A source file with a front-matter block whose only `"a"` sits inside
the block. -/
def rawDoc : String := "---\ntitle: a\n---\nbody"

/-- A dynamic-library candidate for which every step succeeds and that
yields the plugin `p`. -/
def goodCandidate (p : PluginF) : DylibCandidate :=
  { fileExists := true, metadataOk := true, fileLen := 512,
    libNew := .ok (), getSymbol := .ok (), callCtor := .ok p,
    initResult := .ok () }

/-- A zero-length dynamic-library candidate (load fails at validation). -/
def emptyCandidate : DylibCandidate :=
  { fileExists := true, metadataOk := true, fileLen := 0,
    libNew := .ok (), getSymbol := .ok (), callCtor := .panicked,
    initResult := .ok () }

/-- A plugin whose self-reported name contains an underscore. -/
def pluginWordCount : PluginF :=
  mkPlugin "word_count" (fun c _ => .ok c) (fun _ => .ok ())

/-- A sample plugin directory: one valid library, one empty library, one
library whose load panics, one non-library file, one unreadable entry. -/
def sampleEntries : List DirEntry :=
  [DirEntry.nativeLib "libword_count.so" (OuterLoad.completed (goodCandidate pluginWordCount)),
   DirEntry.nativeLib "libempty.so" (OuterLoad.completed emptyCandidate),
   DirEntry.nativeLib "libcrash.so" (OuterLoad.panicked "segfault-adjacent unwind"),
   DirEntry.otherExtension "readme" "txt",
   DirEntry.readError "permission denied"]

/-- The valid plugin loaded from a directory entry, if any: the entry is a
native library, the outer `catch_unwind` completed and
`load_plugin_from_dylib` returned `Ok`. -/
def entryValidPlugin : DirEntry → Option PluginF
  | .nativeLib _ (.completed c) =>
    match loadPluginFromDylib c with
    | .ok plugin => some plugin
    | .error _ => none
  | _ => none

/-- The `"file: reason"` failure message a directory entry contributes to
`failed_plugins`, if any. -/
def entryFailMsg : DirEntry → Option String
  | .nativeLib fileName (.panicked msg) =>
    some (fileName ++ ": 严重错误 - " ++ msg)
  | .nativeLib fileName (.completed c) =>
    match loadPluginFromDylib c with
    | .ok _ => none
    | .error e => some (fileName ++ ": " ++ e)
  | _ => none

/-- How much a directory entry bumps `failed_count`: failed `read_dir`
entries and failed native-library loads count one each. -/
def entryFailCount : DirEntry → Nat
  | .readError _ => 1
  | .nativeLib _ (.panicked _) => 1
  | .nativeLib _ (.completed c) =>
    match loadPluginFromDylib c with
    | .ok _ => 0
    | .error _ => 1
  | _ => 0

/-! Helper lemmas. -/

/-- When every plugin's `execute_hook` succeeds, the error-collecting loop
of `PluginManager::execute_hook` collects nothing. -/
theorem executeHookLoop_eq_nil (iter : List (String × PluginF))
    (hook : PluginHook)
    (h : ∀ p ∈ iter, p.2.executeHook hook = .ok ()) :
    executeHookLoop iter hook = [] := by
  induction iter with
  | nil => rfl
  | cons p rest ih =>
    obtain ⟨name, plugin⟩ := p
    have hp := h _ (List.mem_cons_self _ _)
    simp only [executeHookLoop]
    rw [hp]
    exact ih (fun q hq => h q (List.mem_cons_of_mem _ hq))

/-- When every plugin's `execute_hook` succeeds, `execute_hook` returns
`Ok(())`. -/
theorem managerExecuteHook_ok (iter : List (String × PluginF))
    (hook : PluginHook)
    (h : ∀ p ∈ iter, p.2.executeHook hook = .ok ()) :
    managerExecuteHook iter hook = .ok () := by
  simp [managerExecuteHook, executeHookLoop_eq_nil iter hook h]

/-- One step of the transform loop when the head plugin succeeds: the
accumulator becomes that plugin's output. -/
theorem processContentLoop_cons_ok (nm : String) (P : PluginF)
    (rest : List (String × PluginF)) (c r : String) (t : ContentType)
    (h : P.processContent c t = .ok r) :
    processContentLoop ((nm, P) :: rest) c t = processContentLoop rest r t := by
  simp only [processContentLoop]
  rw [h]

/-- One step of the transform loop when the head plugin fails: the
accumulator is passed on unchanged. -/
theorem processContentLoop_cons_err (nm : String) (P : PluginF)
    (rest : List (String × PluginF)) (c e : String) (t : ContentType)
    (h : P.processContent c t = .error e) :
    processContentLoop ((nm, P) :: rest) c t = processContentLoop rest c t := by
  simp only [processContentLoop]
  rw [h]

/-- Folding `taxoAcc` over a sequence with no string elements changes
nothing. -/
theorem taxoAcc_foldl_no_strings (xs : List YamlValue)
    (h : ∀ x ∈ xs, ∀ s, x ≠ YamlValue.strV s) :
    ∀ acc : List String, xs.foldl taxoAcc acc = acc := by
  induction xs with
  | nil => intro acc; rfl
  | cons x rest ih =>
    intro acc
    have hx := h x (List.mem_cons_self _ _)
    have hstep : taxoAcc acc x = acc := by
      cases x with
      | strV s => exact absurd rfl (hx s)
      | nullV => rfl
      | boolV b => rfl
      | numV n => rfl
      | seqV ys => rfl
      | mapV es => rfl
    rw [List.foldl_cons, hstep]
    exact ih (fun y hy s => h y (List.mem_cons_of_mem _ hy) s) acc

/-! Claims. -/

/-- C10: `PluginManager::is_initialized` returns `false` in every state,
including immediately after a successful `init` has set the internal
`initialized` flag to `true`; consequently the initialization check in
`Engine::generate` always takes the re-initialization branch, re-running
plugin discovery and loading. -/
theorem is_initialized_always_false_so_generate_reinits
    (pm pm2 pm3 : PMState) (entries : List DirEntry) (ran : Bool)
    (hInit : pmInit pm entries = .ok pm2)
    (hStep : engineGenerateInitStep pm entries = .ok (pm3, ran)) :
    pmIsInitialized pm = false ∧ pm2.initialized = true ∧
    pmIsInitialized pm2 = false ∧ ran = true := by
  refine ⟨rfl, ?_, rfl, ?_⟩
  · simp only [pmInit, loadPlugins] at hInit
    cases hInit
    rfl
  · simp only [engineGenerateInitStep, pmIsInitialized, pmInit, loadPlugins,
      if_false, Bool.false_eq_true] at hStep
    cases hStep
    rfl

/-- C10 witness: a state whose `initialized` flag is already `true` is
still reported uninitialized, and the generate-time check re-runs `init`. -/
theorem is_initialized_always_false_so_generate_reinits_witness :
    pmInit { plugins := [], initialized := true } [] =
      .ok { plugins := [], initialized := true } ∧
    engineGenerateInitStep { plugins := [], initialized := true } [] =
      .ok ({ plugins := [], initialized := true }, true) ∧
    (pmIsInitialized { plugins := [], initialized := true } = false ∧
      PMState.initialized { plugins := [], initialized := true } = true ∧
      pmIsInitialized { plugins := [], initialized := true } = false ∧
      true = true) :=
  ⟨rfl, rfl,
    is_initialized_always_false_so_generate_reinits
      { plugins := [], initialized := true }
      { plugins := [], initialized := true }
      { plugins := [], initialized := true } [] true rfl rfl⟩

/-- C8: a plugin whose `process_content` returns an error is skipped: the
next plugin receives exactly the content that was passed to the failing
plugin, and the overall transform still returns `Ok`. -/
theorem failing_plugin_skipped_passthrough
    (nm : String) (pbad : PluginF) (rest : List (String × PluginF))
    (c e : String) (t : ContentType)
    (h : pbad.processContent c t = .error e) :
    processContentLoop ((nm, pbad) :: rest) c t = processContentLoop rest c t ∧
    managerProcessContent ((nm, pbad) :: rest) c t =
      .ok (processContentLoop rest c t) := by
  constructor
  · exact processContentLoop_cons_err nm pbad rest c e t h
  · unfold managerProcessContent
    rw [processContentLoop_cons_err nm pbad rest c e t h]

/-- C8 witness: a concrete always-failing plugin followed by `append-a`. -/
theorem failing_plugin_skipped_passthrough_witness :
    pluginFailContent.processContent "x" ContentType.Markdown =
      .error "content boom" ∧
    (processContentLoop
        [("fail-content", pluginFailContent), ("append-a", pluginAppendA)]
        "x" ContentType.Markdown =
      processContentLoop [("append-a", pluginAppendA)] "x"
        ContentType.Markdown ∧
    managerProcessContent
        [("fail-content", pluginFailContent), ("append-a", pluginAppendA)]
        "x" ContentType.Markdown =
      .ok (processContentLoop [("append-a", pluginAppendA)] "x"
        ContentType.Markdown)) :=
  ⟨rfl, failing_plugin_skipped_passthrough "fail-content" pluginFailContent
    [("append-a", pluginAppendA)] "x" "content boom" ContentType.Markdown rfl⟩

/-- C2 counterexample: with `append-a` registered before `append-b`, the
reversed sequence is also an admissible `HashMap` iteration order, and
transforming `"x"` along it yields `"xba"`, not the registration-order
composition `P2(P1("x")) = "xab"` — the fold runs in the map's arbitrary
iteration order, so it is neither registration order nor deterministic. -/
theorem transform_not_registration_order_cex :
    IsHashMapIter regAB iterBA ∧
    managerProcessContent iterBA "x" ContentType.Markdown = .ok "xba" ∧
    pluginAppendB.processContent "xa" ContentType.Markdown = .ok "xab" ∧
    ("xba" : String) ≠ "xab" :=
  ⟨List.Perm.swap _ _ _, rfl, rfl, by decide⟩

/-- C2 (amended): `transform` is a strict left-fold over the plugins in
the registry's iteration order — each plugin receives the previous
plugin's output: for an iteration sequence `[P1, P2]` whose transforms
succeed, the result is `P2.process_content(P1.process_content(c, t), t)`.
The iteration order is the `HashMap`'s arbitrary order, not guaranteed to
be registration order or stable across runs. -/
theorem transform_left_fold_iteration_order
    (n1 n2 : String) (P1 P2 : PluginF) (c r1 r2 : String) (t : ContentType)
    (h1 : P1.processContent c t = .ok r1)
    (h2 : P2.processContent r1 t = .ok r2) :
    managerProcessContent [(n1, P1), (n2, P2)] c t = .ok r2 := by
  unfold managerProcessContent
  rw [processContentLoop_cons_ok n1 P1 _ c r1 t h1,
    processContentLoop_cons_ok n2 P2 _ r1 r2 t h2]
  rfl

/-- C2 witness: the two append plugins composed in iteration order. -/
theorem transform_left_fold_iteration_order_witness :
    pluginAppendA.processContent "x" ContentType.Markdown = .ok "xa" ∧
    pluginAppendB.processContent "xa" ContentType.Markdown = .ok "xab" ∧
    managerProcessContent [("append-a", pluginAppendA), ("append-b", pluginAppendB)]
      "x" ContentType.Markdown = .ok "xab" :=
  ⟨rfl, rfl,
    transform_left_fold_iteration_order "append-a" "append-b"
      pluginAppendA pluginAppendB "x" "xa" "xab" ContentType.Markdown rfl rfl⟩

/-- C5: front-matter classification shapes — `categories: [a, b]` yields
exactly `[a, b]`; a scalar `categories: a` yields exactly `[a]`; a missing
`categories` key yields nothing; a list of lists and any other
non-string, non-sequence shape yield nothing; and the same holds for
`tags`. -/
theorem front_matter_taxonomy_shapes
    (a b : String) (fm : List (String × YamlValue))
    (hcat : fmGet fm "categories" = none)
    (htag : fmGet fm "tags" = none)
    (xs : List YamlValue)
    (hxs : ∀ x ∈ xs, ∃ ys, x = YamlValue.seqV ys)
    (v : YamlValue)
    (hv : ∀ s, v ≠ YamlValue.strV s)
    (hv2 : ∀ ys, v ≠ YamlValue.seqV ys) :
    processTaxoField
        [("categories", YamlValue.seqV [YamlValue.strV a, YamlValue.strV b])]
        "categories" = [a, b] ∧
    processTaxoField [("categories", YamlValue.strV a)] "categories" = [a] ∧
    processTaxoField fm "categories" = [] ∧
    processTaxoField [("categories", YamlValue.seqV xs)] "categories" = [] ∧
    processTaxoField [("categories", v)] "categories" = [] ∧
    processTaxoField
        [("tags", YamlValue.seqV [YamlValue.strV a, YamlValue.strV b])]
        "tags" = [a, b] ∧
    processTaxoField [("tags", YamlValue.strV a)] "tags" = [a] ∧
    processTaxoField fm "tags" = [] ∧
    processTaxoField [("tags", YamlValue.seqV xs)] "tags" = [] ∧
    processTaxoField [("tags", v)] "tags" = [] := by
  have hnostr : ∀ x ∈ xs, ∀ s, x ≠ YamlValue.strV s := by
    intro x hx s
    obtain ⟨ys, rfl⟩ := hxs x hx
    exact fun hcontra => YamlValue.noConfusion hcontra
  have hother : ∀ key : String,
      processTaxoField [(key, v)] key = [] := by
    intro key
    cases v with
    | strV s => exact absurd rfl (hv s)
    | seqV ys => exact absurd rfl (hv2 ys)
    | nullV => simp [processTaxoField, fmGet]
    | boolV bb => simp [processTaxoField, fmGet]
    | numV n => simp [processTaxoField, fmGet]
    | mapV es => simp [processTaxoField, fmGet]
  refine ⟨?_, ?_, ?_, ?_, hother "categories", ?_, ?_, ?_, ?_, hother "tags"⟩
  · simp [processTaxoField, fmGet, taxoAcc]
  · simp [processTaxoField, fmGet]
  · simp [processTaxoField, hcat]
  · simp [processTaxoField, fmGet, taxoAcc_foldl_no_strings xs hnostr]
  · simp [processTaxoField, fmGet, taxoAcc]
  · simp [processTaxoField, fmGet]
  · simp [processTaxoField, htag]
  · simp [processTaxoField, fmGet, taxoAcc_foldl_no_strings xs hnostr]

/-- C5 witness: concrete shapes — names `rust`, `lean`, a front matter
with neither key, a list of lists and a numeric scalar. -/
theorem front_matter_taxonomy_shapes_witness :
    processTaxoField
        [("categories", YamlValue.seqV
          [YamlValue.strV "rust", YamlValue.strV "lean"])]
        "categories" = ["rust", "lean"] ∧
    processTaxoField [("categories", YamlValue.strV "rust")] "categories" =
      ["rust"] ∧
    processTaxoField [("title", YamlValue.strV "t")] "categories" = [] ∧
    processTaxoField
        [("categories", YamlValue.seqV [YamlValue.seqV [YamlValue.strV "x"]])]
        "categories" = [] ∧
    processTaxoField [("categories", YamlValue.numV 3)] "categories" = [] ∧
    processTaxoField
        [("tags", YamlValue.seqV
          [YamlValue.strV "rust", YamlValue.strV "lean"])]
        "tags" = ["rust", "lean"] ∧
    processTaxoField [("tags", YamlValue.strV "rust")] "tags" = ["rust"] ∧
    processTaxoField [("title", YamlValue.strV "t")] "tags" = [] ∧
    processTaxoField
        [("tags", YamlValue.seqV [YamlValue.seqV [YamlValue.strV "x"]])]
        "tags" = [] ∧
    processTaxoField [("tags", YamlValue.numV 3)] "tags" = [] :=
  front_matter_taxonomy_shapes "rust" "lean" [("title", YamlValue.strV "t")]
    rfl rfl [YamlValue.seqV [YamlValue.strV "x"]]
    (fun x hx => by
      rw [List.mem_singleton] at hx
      exact ⟨[YamlValue.strV "x"], hx⟩)
    (YamlValue.numV 3)
    (fun s h => YamlValue.noConfusion h)
    (fun ys h => YamlValue.noConfusion h)

/-- C6 counterexample: the same two posts classified twice.  The category
map holds the same two entries on both runs, but `HashMap::into_iter` may
emit them in either order; the two admissible orders produce `Vec<Category>`
values that are not byte-for-byte identical. -/
theorem classification_rerun_not_identical_cex :
    IsHashMapIter (groupCounts [postCatA, postCatB] "categories") catsIter1 ∧
    IsHashMapIter (groupCounts [postCatA, postCatB] "categories") catsIter2 ∧
    categoriesFromIter id catsIter1 ≠ categoriesFromIter id catsIter2 := by
  refine ⟨by decide, by decide, ?_⟩
  intro hcontra
  have := congrArg (List.map Category.name) hcontra
  simp [categoriesFromIter, catsIter1, catsIter2] at this

/-- C6 (amended): re-running classification on unchanged documents yields
the same Category and Tag elements with the same post counts — the
collections are permutations of each other — but their order is the
`HashMap`'s arbitrary iteration order, so byte-for-byte identity of the
ordered collections is not guaranteed. -/
theorem classification_rerun_same_elements
    (posts : List Post) (slugify : String → String)
    (it1 it2 jt1 jt2 : List (String × Nat))
    (h1 : IsHashMapIter (groupCounts posts "categories") it1)
    (h2 : IsHashMapIter (groupCounts posts "categories") it2)
    (h3 : IsHashMapIter (groupCounts posts "tags") jt1)
    (h4 : IsHashMapIter (groupCounts posts "tags") jt2) :
    (categoriesFromIter slugify it1).Perm (categoriesFromIter slugify it2) ∧
    (tagsFromIter slugify jt1).Perm (tagsFromIter slugify jt2) :=
  ⟨(h1.trans h2.symm).map _, (h3.trans h4.symm).map _⟩

/-- C6 witness: the two concrete iteration orders of the category map of
`[postCatA, postCatB]` (neither post has tags). -/
theorem classification_rerun_same_elements_witness :
    IsHashMapIter (groupCounts [postCatA, postCatB] "categories") catsIter1 ∧
    IsHashMapIter (groupCounts [postCatA, postCatB] "categories") catsIter2 ∧
    IsHashMapIter (groupCounts [postCatA, postCatB] "tags") [] ∧
    ((categoriesFromIter id catsIter1).Perm (categoriesFromIter id catsIter2) ∧
      (tagsFromIter id []).Perm (tagsFromIter id [])) :=
  ⟨by decide, by decide, by decide,
    classification_rerun_same_elements [postCatA, postCatB] id
      catsIter1 catsIter2 [] [] (by decide) (by decide) (by decide) (by decide)⟩

/-- C9 counterexample: a content load that parses no documents leaves the
previously stored posts in place — the store is not emptied, so it does
not equal the (empty) set of documents parsed from the current source
tree. -/
theorem empty_load_keeps_stale_posts_cex :
    updatePostsStore [postCatA] [] = [postCatA] ∧
    [postCatA] ≠ ([] : List Post) :=
  ⟨rfl, by simp⟩

/-- C9 (amended): whenever at least one document is parsed, the store is
replaced by exactly the parsed documents, sorted by date descending;
when the source tree yields no documents, the previous collection is left
unchanged, so documents from a previous load can remain. -/
theorem nonempty_load_replaces_store
    (oldPosts foundPosts : List Post) (h : foundPosts ≠ []) :
    (updatePostsStore oldPosts foundPosts).Perm foundPosts ∧
    (updatePostsStore oldPosts foundPosts).Pairwise
      (fun a b => b.date ≤ a.date) := by
  have hne : foundPosts.isEmpty = false := by
    cases foundPosts with
    | nil => exact absurd rfl h
    | cons x xs => rfl
  unfold updatePostsStore
  rw [hne]
  simp only [Bool.false_eq_true, if_false]
  constructor
  · exact List.mergeSort_perm foundPosts _
  · have hs := @List.sorted_mergeSort Post
      (fun a b : Post => decide (b.date ≤ a.date))
      (fun a b c hab hbc => by
        simp only [decide_eq_true_eq] at *
        omega)
      (fun a b => by
        simp only [Bool.or_eq_true, decide_eq_true_eq]
        omega)
      foundPosts
    exact hs.imp (fun hab => by simpa using hab)

/-- C9 witness: a singleton load over a stale store. -/
theorem nonempty_load_replaces_store_witness :
    [postCatA] ≠ ([] : List Post) ∧
    ((updatePostsStore [postCatB] [postCatA]).Perm [postCatA] ∧
      (updatePostsStore [postCatB] [postCatA]).Pairwise
        (fun a b => b.date ≤ a.date)) :=
  ⟨by simp, nonempty_load_replaces_store [postCatB] [postCatA] (by simp)⟩

/-- C7 counterexample: with a Markdown-stage plugin that rewrites `'a'` to
`'b'`, loading `"---\ntitle: a\n---\nbody"` applies the transform to the
whole raw file before front matter is parsed, so the parsed front matter
is `"title: b"`; under the spec's order (front matter parsed first, the
transform applied only to the body) it would be `"title: a"`. -/
theorem load_transform_before_front_matter_cex :
    codeLoadDocument [("replace-a", pluginReplaceA)] simpleMatterParse id
      rawDoc =
      some { fmData := "title: b", content := "body",
             rendered_content := "body" } ∧
    specLoadDocument [("replace-a", pluginReplaceA)] simpleMatterParse id
      rawDoc =
      some { fmData := "title: a", content := "body",
             rendered_content := "body" } ∧
    codeLoadDocument [("replace-a", pluginReplaceA)] simpleMatterParse id
      rawDoc ≠
    specLoadDocument [("replace-a", pluginReplaceA)] simpleMatterParse id
      rawDoc :=
  ⟨by decide, by decide, by decide⟩

/-- C7 (amended): during content load each source document is processed in
this order — the Markdown-stage plugin transform is applied to the raw
file text (front-matter block included) first, then front matter is parsed
from the transformed text, then the body is converted to HTML, then the
HTML-stage transform is applied; the document stores the converted HTML
body and the transformed HTML body (the raw Markdown body is not stored). -/
theorem load_pipeline_actual_order
    (iter : List (String × PluginF))
    (matterParse : String → Option String × String)
    (mdRender : String → String) (raw fmData body : String)
    (h : matterParse (engineProcessContent iter raw ContentType.Markdown) =
      (some fmData, body)) :
    codeLoadDocument iter matterParse mdRender raw =
      some { fmData := fmData, content := mdRender body,
             rendered_content :=
               engineProcessContent iter (mdRender body) ContentType.HTML } := by
  simp only [codeLoadDocument]
  rw [h]

/-- C7 witness: the concrete rewriting plugin and raw document. -/
theorem load_pipeline_actual_order_witness :
    simpleMatterParse
      (engineProcessContent [("replace-a", pluginReplaceA)] rawDoc
        ContentType.Markdown) = (some "title: b", "body") ∧
    codeLoadDocument [("replace-a", pluginReplaceA)] simpleMatterParse id
      rawDoc =
      some { fmData := "title: b", content := id "body",
             rendered_content :=
               engineProcessContent [("replace-a", pluginReplaceA)]
                 (id "body") ContentType.HTML } :=
  ⟨by decide,
    load_pipeline_actual_order [("replace-a", pluginReplaceA)]
      simpleMatterParse id rawDoc "title: b" "body" (by decide)⟩

/-- C1 counterexample: a plugin whose `execute_hook` fails at the
`BeforeGenerate` checkpoint aborts the generation run even though every
filesystem step succeeds: `Engine::run` swallows its own dispatch's error,
but `HtmlGenerator::generate` re-dispatches `BeforeGenerate` with `?` and
the aggregated error propagates to the caller. -/
theorem hook_failure_aborts_run_cex :
    pluginFailBeforeGenerate.executeHook PluginHook.BeforeGenerate =
      .error "hook boom" ∧
    (engineRun [("fail-before-generate", pluginFailBeforeGenerate)]
      envAllOk).isOk = false :=
  ⟨rfl, rfl⟩

/-- C1 (amended): hook failures at `Engine::run`'s own checkpoints
(`BeforeGenerate`, `BeforeRouteGenerate`, `AfterGenerate`) are only
logged, and transform failures never abort; but the generator's own
`BeforeGenerate`/`AfterGenerate` dispatches propagate hook errors, so a
run completes exactly when every registered plugin's `execute_hook`
succeeds at those two checkpoints and the filesystem steps succeed —
regardless of failures at the other checkpoints or in `process_content`. -/
theorem run_completes_when_generator_hooks_succeed
    (iter : List (String × PluginF)) (env : GenIOEnv)
    (hBG : ∀ p ∈ iter, p.2.executeHook PluginHook.BeforeGenerate = .ok ())
    (hAG : ∀ p ∈ iter, p.2.executeHook PluginHook.AfterGenerate = .ok ())
    (h1 : env.loadPosts = .ok ()) (h2 : env.classify = .ok ())
    (h3 : env.engineCreateOutputDir = .ok ()) (h4 : env.pluginInit = .ok ())
    (h5 : env.createOutputDir = .ok ()) (h6 : env.copyThemeAssets = .ok ())
    (h7 : env.generatePosts = .ok ())
    (h8 : env.generatePaginatedIndex = .ok ())
    (h9 : env.generateCategories = .ok ()) (h10 : env.generateTags = .ok ())
    (h11 : env.generateArchives = .ok ()) (h12 : env.generateRss = .ok ())
    (h13 : env.generateAtom = .ok ())
    (h14 : env.generateSearchIndex = .ok ()) :
    engineRun iter env = .ok () := by
  have eBG := managerExecuteHook_ok iter PluginHook.BeforeGenerate hBG
  have eAG := managerExecuteHook_ok iter PluginHook.AfterGenerate hAG
  simp [engineRun, engineGenerate, generatorGenerate, eBG, eAG, h1, h2, h3,
    h4, h5, h6, h7, h8, h9, h10, h11, h12, h13, h14]
  rfl

/-- C1 witness: a plugin that fails the `BeforeRouteGenerate` hook and
every content transform, yet the run completes. -/
theorem run_completes_when_generator_hooks_succeed_witness :
    pluginFailRouteHook.executeHook PluginHook.BeforeRouteGenerate =
      .error "route boom" ∧
    pluginFailRouteHook.processContent "x" ContentType.Markdown =
      .error "content boom" ∧
    engineRun [("fail-route-hook", pluginFailRouteHook)] envAllOk = .ok () :=
  ⟨rfl, rfl,
    run_completes_when_generator_hooks_succeed
      [("fail-route-hook", pluginFailRouteHook)] envAllOk
      (fun p hp => by rw [List.mem_singleton] at hp; rw [hp]; rfl)
      (fun p hp => by rw [List.mem_singleton] at hp; rw [hp]; rfl)
      rfl rfl rfl rfl rfl rfl rfl rfl rfl rfl rfl rfl rfl rfl⟩

/-- `HashMap::insert` with a fresh key appends the entry. -/
theorem hmInsert_append (m : Registry) (k : String) (v : PluginF)
    (h : k ∉ m.map Prod.fst) : hmInsert m k v = m ++ [(k, v)] := by
  induction m with
  | nil => rfl
  | cons p rest ih =>
    obtain ⟨k2, v2⟩ := p
    simp only [List.map_cons, List.mem_cons, not_or] at h
    obtain ⟨hne, hrest⟩ := h
    simp only [hmInsert]
    rw [if_neg (fun hc => hne hc.symm), ih hrest]
    rfl

/-- `entryValidPlugin` on a completed load that succeeded. -/
theorem entryValidPlugin_ok (f : String) (c : DylibCandidate) (p : PluginF)
    (hl : loadPluginFromDylib c = .ok p) :
    entryValidPlugin (DirEntry.nativeLib f (OuterLoad.completed c)) = some p := by
  simp only [entryValidPlugin]
  rw [hl]

/-- `entryValidPlugin` on a completed load that failed. -/
theorem entryValidPlugin_err (f : String) (c : DylibCandidate) (e : String)
    (hl : loadPluginFromDylib c = .error e) :
    entryValidPlugin (DirEntry.nativeLib f (OuterLoad.completed c)) = none := by
  simp only [entryValidPlugin]
  rw [hl]

/-- `entryFailMsg` on a completed load that succeeded. -/
theorem entryFailMsg_ok (f : String) (c : DylibCandidate) (p : PluginF)
    (hl : loadPluginFromDylib c = .ok p) :
    entryFailMsg (DirEntry.nativeLib f (OuterLoad.completed c)) = none := by
  simp only [entryFailMsg]
  rw [hl]

/-- `entryFailMsg` on a completed load that failed. -/
theorem entryFailMsg_err (f : String) (c : DylibCandidate) (e : String)
    (hl : loadPluginFromDylib c = .error e) :
    entryFailMsg (DirEntry.nativeLib f (OuterLoad.completed c)) =
      some (f ++ ": " ++ e) := by
  simp only [entryFailMsg]
  rw [hl]

/-- `entryFailCount` on a completed load that succeeded. -/
theorem entryFailCount_ok (f : String) (c : DylibCandidate) (p : PluginF)
    (hl : loadPluginFromDylib c = .ok p) :
    entryFailCount (DirEntry.nativeLib f (OuterLoad.completed c)) = 0 := by
  simp only [entryFailCount]
  rw [hl]

/-- `entryFailCount` on a completed load that failed. -/
theorem entryFailCount_err (f : String) (c : DylibCandidate) (e : String)
    (hl : loadPluginFromDylib c = .error e) :
    entryFailCount (DirEntry.nativeLib f (OuterLoad.completed c)) = 1 := by
  simp only [entryFailCount]
  rw [hl]

/-- `load_plugins` loop step on a successfully loaded library: register
under the normalized name and bump `loaded_count`. -/
theorem loadPluginsStep_lib_ok (acc : LoadReport) (f : String)
    (c : DylibCandidate) (p : PluginF)
    (hl : loadPluginFromDylib c = .ok p) :
    loadPluginsStep acc (DirEntry.nativeLib f (OuterLoad.completed c)) =
      { acc with
        registry := hmInsert acc.registry (normalizeName p.name) p,
        loadedCount := acc.loadedCount + 1 } := by
  simp only [loadPluginsStep]
  rw [hl]

/-- `load_plugins` loop step on a library whose load failed: record the
`"file: reason"` message and bump `failed_count`. -/
theorem loadPluginsStep_lib_err (acc : LoadReport) (f : String)
    (c : DylibCandidate) (e : String)
    (hl : loadPluginFromDylib c = .error e) :
    loadPluginsStep acc (DirEntry.nativeLib f (OuterLoad.completed c)) =
      { acc with
        failedPlugins := acc.failedPlugins ++ [f ++ ": " ++ e],
        failedCount := acc.failedCount + 1 } := by
  simp only [loadPluginsStep]
  rw [hl]

/-- Characterization of the `load_plugins` fold: starting from any
accumulator whose registry is disjoint from the incoming (pairwise
distinct) normalized plugin names, the fold appends the valid plugins to
the registry in directory order, counts them in `loaded_count`, counts
every failure in `failed_count`, and appends one `"file: reason"` message
per failed library. -/
theorem loadPlugins_foldl (entries : List DirEntry) :
    ∀ acc : LoadReport,
    ((entries.filterMap entryValidPlugin).map
      (fun p => normalizeName p.name)).Nodup →
    (∀ p ∈ entries.filterMap entryValidPlugin,
      normalizeName p.name ∉ acc.registry.map Prod.fst) →
    entries.foldl loadPluginsStep acc =
      { registry := acc.registry ++
          (entries.filterMap entryValidPlugin).map
            (fun p => (normalizeName p.name, p)),
        loadedCount := acc.loadedCount +
          (entries.filterMap entryValidPlugin).length,
        failedCount := acc.failedCount + (entries.map entryFailCount).sum,
        failedPlugins := acc.failedPlugins ++
          entries.filterMap entryFailMsg } := by
  induction entries with
  | nil => intro acc _ _; simp
  | cons e rest ih =>
    intro acc hnodup hfresh
    rw [List.foldl_cons]
    cases e with
    | readError msg =>
      rw [ih _ (by simpa [entryValidPlugin] using hnodup)
        (by simpa [entryValidPlugin] using hfresh)]
      ext <;>
        (simp [loadPluginsStep, entryValidPlugin, entryFailMsg,
          entryFailCount]; try omega)
    | notAFile n =>
      rw [ih _ (by simpa [entryValidPlugin] using hnodup)
        (by simpa [entryValidPlugin] using hfresh)]
      ext <;>
        simp [loadPluginsStep, entryValidPlugin, entryFailMsg,
          entryFailCount]
    | noExtension n =>
      rw [ih _ (by simpa [entryValidPlugin] using hnodup)
        (by simpa [entryValidPlugin] using hfresh)]
      ext <;>
        simp [loadPluginsStep, entryValidPlugin, entryFailMsg,
          entryFailCount]
    | otherExtension n x =>
      rw [ih _ (by simpa [entryValidPlugin] using hnodup)
        (by simpa [entryValidPlugin] using hfresh)]
      ext <;>
        simp [loadPluginsStep, entryValidPlugin, entryFailMsg,
          entryFailCount]
    | nativeLib fileName load =>
      cases load with
      | panicked msg =>
        rw [ih _ (by simpa [entryValidPlugin] using hnodup)
          (by simpa [entryValidPlugin] using hfresh)]
        ext <;>
          (simp [loadPluginsStep, entryValidPlugin, entryFailMsg,
            entryFailCount]; try omega)
      | completed c =>
        cases hl : loadPluginFromDylib c with
        | error e2 =>
          rw [loadPluginsStep_lib_err acc fileName c e2 hl,
            ih _ (by
              rw [List.filterMap_cons_none
                (entryValidPlugin_err fileName c e2 hl)] at hnodup
              exact hnodup)
            (by
              intro p hp
              rw [List.filterMap_cons_none
                (entryValidPlugin_err fileName c e2 hl)] at hfresh
              exact hfresh p hp)]
          rw [List.filterMap_cons_none (entryValidPlugin_err fileName c e2 hl),
            List.filterMap_cons_some (entryFailMsg_err fileName c e2 hl)]
          ext <;>
            (simp [entryFailCount_err fileName c e2 hl]; try omega)
        | ok p =>
          have hval : (DirEntry.nativeLib fileName (OuterLoad.completed c)
              :: rest).filterMap entryValidPlugin =
              p :: rest.filterMap entryValidPlugin :=
            List.filterMap_cons_some (entryValidPlugin_ok fileName c p hl)
          rw [hval] at hnodup hfresh
          simp only [List.map_cons, List.nodup_cons] at hnodup
          obtain ⟨hkey, hnodup2⟩ := hnodup
          have hfreshp := hfresh p (List.mem_cons_self _ _)
          rw [loadPluginsStep_lib_ok acc fileName c p hl,
            hmInsert_append acc.registry (normalizeName p.name) p hfreshp]
          rw [ih _ hnodup2 (by
            intro q hq
            simp only [List.map_append, List.map_cons, List.map_nil,
              List.mem_append, List.mem_singleton, not_or]
            refine ⟨hfresh q (List.mem_cons_of_mem _ hq), ?_⟩
            intro hzq
            exact hkey (hzq ▸ List.mem_map_of_mem _ hq))]
          rw [hval]
          ext <;>
            (simp [entryFailMsg_ok fileName c p hl,
              entryFailCount_ok fileName c p hl]; try omega)

/-- C3: for a plugin directory holding `N` valid and `M` invalid native
libraries (plus arbitrary non-library entries), `load_plugins` starting
from an empty registry registers exactly the `N` valid plugins under
their normalized names, reports exactly the `M` failures as
`"file: reason"` entries of `failed_plugins`, counts every failure
(including caught panics) in `failed_count`, and returns `Ok` — it never
fails the whole call because one plugin failed to load, and caught panics
are converted into failure reports rather than propagated. -/
theorem load_plugins_counts_and_registry (entries : List DirEntry)
    (hnodup : ((entries.filterMap entryValidPlugin).map
      (fun p => normalizeName p.name)).Nodup) :
    loadPlugins [] entries = .ok
      { registry := (entries.filterMap entryValidPlugin).map
          (fun p => (normalizeName p.name, p)),
        loadedCount := (entries.filterMap entryValidPlugin).length,
        failedCount := (entries.map entryFailCount).sum,
        failedPlugins := entries.filterMap entryFailMsg } := by
  unfold loadPlugins
  rw [loadPlugins_foldl entries
    { registry := [], loadedCount := 0, failedCount := 0,
      failedPlugins := [] } hnodup (by simp)]
  simp

/-- C3 witness: a directory with one valid library (named `word_count`,
registered as `word-count`), one empty library, one library whose load
panics, a `.txt` file and an unreadable entry: one plugin registered, two
failures reported, the call returns `Ok`. -/
theorem load_plugins_counts_and_registry_witness :
    ((sampleEntries.filterMap entryValidPlugin).map
      (fun p => normalizeName p.name)).Nodup ∧
    loadPlugins [] sampleEntries = .ok
      { registry := (sampleEntries.filterMap entryValidPlugin).map
          (fun p => (normalizeName p.name, p)),
        loadedCount := (sampleEntries.filterMap entryValidPlugin).length,
        failedCount := (sampleEntries.map entryFailCount).sum,
        failedPlugins := sampleEntries.filterMap entryFailMsg } :=
  ⟨by decide, load_plugins_counts_and_registry sampleEntries (by decide)⟩

/-- Concatenating the first `t` page slices yields the first
`min (t * S) (length posts)` posts. -/
theorem pageSlice_join_take (posts : List Post) (S : Nat) (t : Nat) :
    ((List.range t).map (pageSlice posts S)).flatten =
      posts.take (min (t * S) posts.length) := by
  induction t with
  | zero => simp
  | succ t ih =>
    rw [List.range_succ, List.map_append, List.flatten_append, ih]
    simp only [List.map_cons, List.map_nil, List.flatten_cons, List.flatten_nil,
      List.append_nil]
    by_cases hc : posts.length ≤ t * S
    · have hdrop : posts.drop (t * S) = [] := List.drop_eq_nil_of_le hc
      have h1 : min (t * S) posts.length = posts.length := by omega
      have h2 : min ((t + 1) * S) posts.length = posts.length := by
        have hsucc : (t + 1) * S = t * S + S := by ring
        omega
      rw [h1, h2]
      simp [pageSlice, hdrop]
    · push_neg at hc
      have h1 : min (t * S) posts.length = t * S := by omega
      have hsucc : (t + 1) * S = t * S + S := by ring
      have hm1 : t * S ≤ min ((t + 1) * S) posts.length := by
        rw [hsucc]; omega
      have hm2 : min ((t + 1) * S) posts.length =
          t * S + (min ((t + 1) * S) posts.length - t * S) := by omega
      rw [h1]
      conv_rhs => rw [hm2]
      rw [List.take_add]
      simp only [pageSlice, hsucc]

/-- C4: for a post list of length `P` and page size `S > 0`,
`generate_paginated_index` produces exactly `⌈P / S⌉` index pages, and
concatenating the per-page post slices in page order reconstructs the
original post list — no duplicates, no omissions. -/
theorem paginated_index_count_and_partition (posts : List Post) (S : Nat)
    (hS : 0 < S) :
    (paginatedPages posts S).length = posts.length ⌈/⌉ S ∧
    (paginatedPages posts S).flatten = posts := by
  constructor
  · simp [paginatedPages, Nat.ceilDiv_eq_add_pred_div]
  · unfold paginatedPages
    rw [pageSlice_join_take]
    have hge : posts.length ≤ ((posts.length + S - 1) / S) * S := by
      simpa [Nat.ceilDiv_eq_add_pred_div, smul_eq_mul, Nat.mul_comm] using
        le_smul_ceilDiv (α := ℕ) hS (b := posts.length)
    rw [min_eq_right hge]
    exact List.take_length posts

/-- C4 witness: three posts with page size two — two pages, joining back
to the original list. -/
theorem paginated_index_count_and_partition_witness :
    (0 : Nat) < 2 ∧
    ((paginatedPages [postCatA, postCatB, mkPost "pc" 3 []] 2).length =
      ([postCatA, postCatB, mkPost "pc" 3 []] : List Post).length ⌈/⌉ 2 ∧
    (paginatedPages [postCatA, postCatB, mkPost "pc" 3 []] 2).flatten =
      [postCatA, postCatB, mkPost "pc" 3 []]) :=
  ⟨by decide,
    paginated_index_count_and_partition [postCatA, postCatB, mkPost "pc" 3 []]
      2 (by decide)⟩

end RustHexo
